import Mathlib

/-!
Verification of the GitHub→Discord webhook relay (`src/main.go`).

The program is a stateless pipeline: an HTTP request carrying a GitHub
webhook payload is decoded, classified by the `X-GitHub-Event` header,
handed to one of two handlers, and the handler may post one Discord
message to one of two configured channel webhooks.

We embed the payload structures, the Discord message structures, the two
handlers and the dispatcher as pure Lean functions.  The outbound call
`sendDiscordMessage(url, message)` is modelled by recording the pair
`(url, message)` in the returned list of sends, so "exactly one
notification is sent to destination d" becomes "the returned list is
`[(d, m)]`".  The two process-wide webhook URLs become an explicit
`Config` record.
-/

/-- `Repository` from `src/main.go`: `full_name`, `html_url`. -/
structure Repository where
  full_name : String
  html_url : String
deriving Repr, DecidableEq

/-- `Sender` from `src/main.go`: `login`, `html_url`. -/
structure Sender where
  login : String
  html_url : String
deriving Repr, DecidableEq

/-- `PullRequest` from `src/main.go`: `number`, `title`, `html_url`, `merged`, `state`. -/
structure PullRequest where
  number : Int
  title : String
  html_url : String
  merged : Bool
  state : String
deriving Repr, DecidableEq

/-- `WorkflowRun` from `src/main.go`: `name`, `status`, `conclusion`, `html_url`. -/
structure WorkflowRun where
  name : String
  status : String
  conclusion : String
  html_url : String
deriving Repr, DecidableEq

/-- `GitHubEvent` from `src/main.go`: the decoded inbound payload. -/
structure GitHubEvent where
  action : String
  repository : Repository
  sender : Sender
  pull_request : PullRequest
  workflow_run : WorkflowRun
deriving Repr, DecidableEq

/-- `DiscordEmbedField` from `src/main.go`: `name`, `value`, `inline`. -/
structure DiscordEmbedField where
  name : String
  value : String
  inline : Bool
deriving Repr, DecidableEq

/-- `DiscordEmbed` from `src/main.go`: `title`, `description`, `color`, `url`, `fields`. -/
structure DiscordEmbed where
  title : String
  description : String
  color : Nat
  url : String
  fields : List DiscordEmbedField
deriving Repr, DecidableEq

/-- `DiscordMessage` from `src/main.go`: `content`, `embeds`. -/
structure DiscordMessage where
  content : String
  embeds : List DiscordEmbed
deriving Repr, DecidableEq

/-- The two process-wide channel webhook URLs (`developmentChannelWebhook`,
`testingChannelWebhook` in `src/main.go`), made an explicit record. -/
structure Config where
  developmentChannelWebhook : String
  testingChannelWebhook : String
deriving Repr, DecidableEq

/-- The `actionsToProcess` set of `handlePullRequestEvent`: membership in the
Go map literal with keys `opened`, `reopened`, `ready_for_review`, `closed`
(lookup of any other key yields `false`). -/
def actionsToProcess (a : String) : Bool :=
  a == "opened" || a == "reopened" || a == "ready_for_review" || a == "closed"

/-- The `message` value built by `handlePullRequestEvent` in `src/main.go`
(the `color` and `actionDesc` locals and the `DiscordMessage` literal),
named so that theorems can refer to it. -/
def prMessage (event : GitHubEvent) : DiscordMessage :=
  let color : Nat :=
      if event.action == "closed" && event.pull_request.merged then
        0x6E48CD
      else
        0x1D82F7
    let actionDesc : String :=
      if event.action == "closed" && event.pull_request.merged then
        "merged"
      else
        event.action
    let message : DiscordMessage :=
      { content := ""
        embeds := [
          { title := "Pull Request " ++ actionDesc
            description := "**" ++ event.sender.login ++ "** " ++ actionDesc ++
              " [#" ++ toString event.pull_request.number ++ ": " ++
              event.pull_request.title ++ "](" ++ event.pull_request.html_url ++ ")"
            color := color
            url := event.pull_request.html_url
            fields := [
              { name := "Repository"
                value := "[" ++ event.repository.full_name ++ "](" ++
                  event.repository.html_url ++ ")"
                inline := true },
              { name := "PR Status"
                value := event.pull_request.state
                inline := true } ] } ] }
    message

/-- `handlePullRequestEvent` from `src/main.go`.  Returns the list of
outbound sends `(webhook url, message)`; the empty list means the event was
dropped without a notification. -/
def handlePullRequestEvent (cfg : Config) (event : GitHubEvent) :
    List (String × DiscordMessage) :=
  if !(actionsToProcess event.action) then
    []
  else if event.action == "closed" && !event.pull_request.merged then
    []
  else
    [(cfg.developmentChannelWebhook, prMessage event)]

/-- The `message` value built by `handleWorkflowRunEvent` in `src/main.go`
(the `color` local and the `DiscordMessage` literal), named so that theorems
can refer to it. -/
def wfMessage (event : GitHubEvent) : DiscordMessage :=
  let color : Nat :=
      match event.workflow_run.conclusion with
      | "success" => 0x2ECC71
      | "failure" => 0xE74C3C
      | "cancelled" => 0xF39C12
      | "skipped" => 0x95A5A6
      | _ => 0xE6E6E6
    let message : DiscordMessage :=
      { content := ""
        embeds := [
          { title := "Workflow Run " ++ event.workflow_run.conclusion
            description := "Workflow **" ++ event.workflow_run.name ++ "** " ++
              event.workflow_run.conclusion
            color := color
            url := event.workflow_run.html_url
            fields := [
              { name := "Repository"
                value := "[" ++ event.repository.full_name ++ "](" ++
                  event.repository.html_url ++ ")"
                inline := true },
              { name := "Triggered by"
                value := "[" ++ event.sender.login ++ "](" ++
                  event.sender.html_url ++ ")"
                inline := true } ] } ] }
    message

/-- `handleWorkflowRunEvent` from `src/main.go`.  Returns the list of
outbound sends `(webhook url, message)`. -/
def handleWorkflowRunEvent (cfg : Config) (event : GitHubEvent) :
    List (String × DiscordMessage) :=
  if event.action != "completed" then
    []
  else
    [(cfg.testingChannelWebhook, wfMessage event)]

/-!
The dispatcher `handleGitHubWebhook` first runs `json.Unmarshal` on the
request body.  We model the already-lexed body as a JSON value (`Option Json`,
with `none` for a body that is not well-formed JSON), and model Go's
`encoding/json` unmarshalling of that value into `GitHubEvent`: object keys
are matched against the field tags under Go's simple case folding, unknown
keys are ignored, `null` leaves the current value in place, a value of the
wrong JSON kind is an unmarshalling error, and a number that overflows the
`int` field (64-bit) is an unmarshalling error.  JSON numbers are modelled
as integers (the claims never involve fractional numbers).  Go reports the
first type error after finishing the walk; since the dispatcher discards the
partial result whenever the error is non-nil, an `Option` decoder that stops
at the first error has the same observable behaviour.
-/

/-- A parsed JSON value. -/
inductive Json where
  | null : Json
  | bool : Bool → Json
  | num : Int → Json
  | str : String → Json
  | arr : List Json → Json
  | obj : List (String × Json) → Json
deriving Repr

/-- Unmarshal a JSON value into a `string` field whose current value is
`cur`: a JSON string replaces it, `null` keeps it, anything else errors. -/
def decodeString (cur : String) : Json → Option String
  | Json.str s => some s
  | Json.null => some cur
  | _ => none

/-- Unmarshal a JSON value into an `int` field: a number is accepted only if
it fits the 64-bit `int` (`strconv.ParseInt` range-errors otherwise, which
`json.Unmarshal` reports as an unmarshalling error). -/
def decodeInt (cur : Int) : Json → Option Int
  | Json.num n => if -(2 ^ 63) ≤ n ∧ n < 2 ^ 63 then some n else none
  | Json.null => some cur
  | _ => none

/-- Unmarshal a JSON value into a `bool` field. -/
def decodeBool (cur : Bool) : Json → Option Bool
  | Json.bool b => some b
  | Json.null => some cur
  | _ => none

/-- Go's simple case folding of one character onto the ASCII lower-case
letters: an ASCII upper-case letter folds down by 32, and the two non-ASCII
runes whose simple-fold orbit contains an ASCII letter fold as well — the
long s U+017F onto `s` and the Kelvin sign U+212A onto `k` (these are
exactly the special cases of `encoding/json`'s key folding).  Every other
character is left alone. -/
def foldChar (c : Char) : Char :=
  if c.isUpper then Char.ofNat (c.toNat + 32)
  else if c.toNat = 0x17F then 's'
  else if c.toNat = 0x212A then 'k'
  else c

/-- Fold a string character by character with `foldChar`. -/
def foldKey (s : String) : String :=
  ⟨s.data.map foldChar⟩

/-- `encoding/json` key matching: a JSON object key matches a struct tag iff
they are equal under Go's simple case folding.  The tags in `src/main.go`
are all ASCII lower-case letters and underscores, so folding the key onto
that alphabet with `foldChar` and comparing is exactly that equivalence. -/
def keyIs (k tag : String) : Bool :=
  foldKey k == tag

/-- Process one key/value pair of a JSON object into a `Repository`. -/
def updateRepository (r : Repository) (k : String) (v : Json) : Option Repository :=
  if keyIs k "full_name" then
    (decodeString r.full_name v).map (fun s => { r with full_name := s })
  else if keyIs k "html_url" then
    (decodeString r.html_url v).map (fun s => { r with html_url := s })
  else
    some r

/-- Unmarshal a JSON value into a `Repository` starting from `r`. -/
def decodeRepository (r : Repository) : Json → Option Repository
  | Json.obj fs => fs.foldlM (fun a kv => updateRepository a kv.fst kv.snd) r
  | Json.null => some r
  | _ => none

/-- Process one key/value pair of a JSON object into a `Sender`. -/
def updateSender (s : Sender) (k : String) (v : Json) : Option Sender :=
  if keyIs k "login" then
    (decodeString s.login v).map (fun x => { s with login := x })
  else if keyIs k "html_url" then
    (decodeString s.html_url v).map (fun x => { s with html_url := x })
  else
    some s

/-- Unmarshal a JSON value into a `Sender` starting from `s`. -/
def decodeSender (s : Sender) : Json → Option Sender
  | Json.obj fs => fs.foldlM (fun a kv => updateSender a kv.fst kv.snd) s
  | Json.null => some s
  | _ => none

/-- Process one key/value pair of a JSON object into a `PullRequest`. -/
def updatePullRequest (p : PullRequest) (k : String) (v : Json) : Option PullRequest :=
  if keyIs k "number" then
    (decodeInt p.number v).map (fun x => { p with number := x })
  else if keyIs k "title" then
    (decodeString p.title v).map (fun x => { p with title := x })
  else if keyIs k "html_url" then
    (decodeString p.html_url v).map (fun x => { p with html_url := x })
  else if keyIs k "merged" then
    (decodeBool p.merged v).map (fun x => { p with merged := x })
  else if keyIs k "state" then
    (decodeString p.state v).map (fun x => { p with state := x })
  else
    some p

/-- Unmarshal a JSON value into a `PullRequest` starting from `p`. -/
def decodePullRequest (p : PullRequest) : Json → Option PullRequest
  | Json.obj fs => fs.foldlM (fun a kv => updatePullRequest a kv.fst kv.snd) p
  | Json.null => some p
  | _ => none

/-- Process one key/value pair of a JSON object into a `WorkflowRun`. -/
def updateWorkflowRun (w : WorkflowRun) (k : String) (v : Json) : Option WorkflowRun :=
  if keyIs k "name" then
    (decodeString w.name v).map (fun x => { w with name := x })
  else if keyIs k "status" then
    (decodeString w.status v).map (fun x => { w with status := x })
  else if keyIs k "conclusion" then
    (decodeString w.conclusion v).map (fun x => { w with conclusion := x })
  else if keyIs k "html_url" then
    (decodeString w.html_url v).map (fun x => { w with html_url := x })
  else
    some w

/-- Unmarshal a JSON value into a `WorkflowRun` starting from `w`. -/
def decodeWorkflowRun (w : WorkflowRun) : Json → Option WorkflowRun
  | Json.obj fs => fs.foldlM (fun a kv => updateWorkflowRun a kv.fst kv.snd) w
  | Json.null => some w
  | _ => none

/-- The zero value of `GitHubEvent`, as produced by `var event GitHubEvent`. -/
def zeroGitHubEvent : GitHubEvent :=
  { action := ""
    repository := { full_name := "", html_url := "" }
    sender := { login := "", html_url := "" }
    pull_request := { number := 0, title := "", html_url := "", merged := false, state := "" }
    workflow_run := { name := "", status := "", conclusion := "", html_url := "" } }

/-- Process one key/value pair of the top-level JSON object into a `GitHubEvent`. -/
def updateGitHubEvent (e : GitHubEvent) (k : String) (v : Json) : Option GitHubEvent :=
  if keyIs k "action" then
    (decodeString e.action v).map (fun x => { e with action := x })
  else if keyIs k "repository" then
    (decodeRepository e.repository v).map (fun x => { e with repository := x })
  else if keyIs k "sender" then
    (decodeSender e.sender v).map (fun x => { e with sender := x })
  else if keyIs k "pull_request" then
    (decodePullRequest e.pull_request v).map (fun x => { e with pull_request := x })
  else if keyIs k "workflow_run" then
    (decodeWorkflowRun e.workflow_run v).map (fun x => { e with workflow_run := x })
  else
    some e

/-- `json.Unmarshal(body, &event)` for `var event GitHubEvent`: the JSON value
must be an object (or `null`, which leaves the zero value); `some` is a nil
error, `none` a non-nil one. -/
def decodeGitHubEvent : Json → Option GitHubEvent
  | Json.obj fs => fs.foldlM (fun a kv => updateGitHubEvent a kv.fst kv.snd) zeroGitHubEvent
  | Json.null => some zeroGitHubEvent
  | _ => none

/-- An HTTP response as produced by `c.JSON(status, gin.H{...})`: the status
code and the key/value pairs of the JSON body. -/
structure HttpResponse where
  status : Nat
  body : List (String × String)
deriving Repr, DecidableEq

/-- `handleGitHubWebhook` from `src/main.go`.  `eventType` is the
`X-GitHub-Event` header (the empty string when the header is absent);
`body` is the request body, `none` when it is not well-formed JSON.
Returns the response to the caller and the list of outbound sends. -/
def handleGitHubWebhook (cfg : Config) (eventType : String) (body : Option Json) :
    HttpResponse × List (String × DiscordMessage) :=
  match body with
  | none => ({ status := 400, body := [("error", "Invalid JSON payload")] }, [])
  | some j =>
    match decodeGitHubEvent j with
    | none => ({ status := 400, body := [("error", "Invalid JSON payload")] }, [])
    | some event =>
      let sends : List (String × DiscordMessage) :=
        if eventType == "pull_request" then
          handlePullRequestEvent cfg event
        else if eventType == "workflow_run" then
          handleWorkflowRunEvent cfg event
        else
          []
      ({ status := 200, body := [("message", "Webhook received successfully")] }, sends)

/-!
Helper lemmas and sample inputs shared by the claim theorems below.
-/

/-- Any send emitted by the pull-request handler is the single
development-channel send of `prMessage`. -/
theorem handlePullRequestEvent_sends {cfg : Config} {e : GitHubEvent}
    {x : String × DiscordMessage} (h : x ∈ handlePullRequestEvent cfg e) :
    x = (cfg.developmentChannelWebhook, prMessage e) := by
  unfold handlePullRequestEvent at h
  split at h
  · simp at h
  · split at h
    · simp at h
    · simpa using h

/-- Any send emitted by the workflow-run handler is the single
testing-channel send of `wfMessage`. -/
theorem handleWorkflowRunEvent_sends {cfg : Config} {e : GitHubEvent}
    {x : String × DiscordMessage} (h : x ∈ handleWorkflowRunEvent cfg e) :
    x = (cfg.testingChannelWebhook, wfMessage e) := by
  unfold handleWorkflowRunEvent at h
  split at h
  · simp at h
  · simpa using h

/-- A sample configuration for concrete instantiations. -/
def sampleConfig : Config :=
  { developmentChannelWebhook := "https://discord/dev"
    testingChannelWebhook := "https://discord/test" }

/-- The pull-request scenario payload of the spec: action `opened`,
PR #42 "Fix bug" by alice in org/repo. -/
def sampleOpenedEvent : GitHubEvent :=
  { action := "opened"
    repository := { full_name := "org/repo", html_url := "http://x" }
    sender := { login := "alice", html_url := "http://a" }
    pull_request :=
      { number := 42, title := "Fix bug", html_url := "http://x/42"
        merged := false, state := "open" }
    workflow_run := { name := "", status := "", conclusion := "", html_url := "" } }

/-- The same payload with action `closed` and `merged = true`. -/
def sampleMergedEvent : GitHubEvent :=
  { sampleOpenedEvent with
    action := "closed"
    pull_request := { sampleOpenedEvent.pull_request with merged := true } }

/-- A completed workflow-run payload: workflow CI concluded `failure`. -/
def sampleCompletedEvent : GitHubEvent :=
  { sampleOpenedEvent with
    action := "completed"
    workflow_run :=
      { name := "CI", status := "completed", conclusion := "failure"
        html_url := "http://x/run" } }

/-!
The claim theorems.
-/

/-- C1: for every pull-request event whose action is `opened`, `reopened` or
`ready_for_review`, the handler sends exactly one notification, to the
development destination, with embed color 0x1D82F7 and display action label
equal to the action string (the embed title is "Pull Request <action>"). -/
theorem pullRequest_basic_action_notifies (cfg : Config) (e : GitHubEvent)
    (h : e.action = "opened" ∨ e.action = "reopened" ∨ e.action = "ready_for_review") :
    handlePullRequestEvent cfg e = [(cfg.developmentChannelWebhook, prMessage e)] ∧
    (prMessage e).embeds.map DiscordEmbed.color = [0x1D82F7] ∧
    (prMessage e).embeds.map DiscordEmbed.title = ["Pull Request " ++ e.action] := by
  rcases h with h | h | h <;>
    simp [handlePullRequestEvent, prMessage, actionsToProcess, h]

/-- C1 witness: the spec's `opened` scenario instantiated concretely. -/
theorem pullRequest_basic_action_notifies_witness :
    handlePullRequestEvent sampleConfig sampleOpenedEvent =
      [(sampleConfig.developmentChannelWebhook, prMessage sampleOpenedEvent)] ∧
    (prMessage sampleOpenedEvent).embeds.map DiscordEmbed.color = [0x1D82F7] ∧
    (prMessage sampleOpenedEvent).embeds.map DiscordEmbed.title =
      ["Pull Request " ++ sampleOpenedEvent.action] :=
  pullRequest_basic_action_notifies sampleConfig sampleOpenedEvent (Or.inl rfl)

/-- C2: for every pull-request event with action `closed` and `merged = true`,
the handler sends exactly one notification, with embed color 0x6E48CD and
display label `merged` (embed title "Pull Request merged"). -/
theorem pullRequest_merged_notifies (cfg : Config) (e : GitHubEvent)
    (h1 : e.action = "closed") (h2 : e.pull_request.merged = true) :
    handlePullRequestEvent cfg e = [(cfg.developmentChannelWebhook, prMessage e)] ∧
    (prMessage e).embeds.map DiscordEmbed.color = [0x6E48CD] ∧
    (prMessage e).embeds.map DiscordEmbed.title = ["Pull Request merged"] := by
  simp [handlePullRequestEvent, prMessage, actionsToProcess, h1, h2]

/-- C2 witness: the merged scenario instantiated concretely. -/
theorem pullRequest_merged_notifies_witness :
    handlePullRequestEvent sampleConfig sampleMergedEvent =
      [(sampleConfig.developmentChannelWebhook, prMessage sampleMergedEvent)] ∧
    (prMessage sampleMergedEvent).embeds.map DiscordEmbed.color = [0x6E48CD] ∧
    (prMessage sampleMergedEvent).embeds.map DiscordEmbed.title = ["Pull Request merged"] :=
  pullRequest_merged_notifies sampleConfig sampleMergedEvent rfl rfl

/-- C3: a pull-request event whose action is none of `opened`, `reopened`,
`ready_for_review`, `closed`, and likewise a `closed` event with
`merged = false`, produces no notification. -/
theorem pullRequest_filtered_no_notification (cfg : Config) (e : GitHubEvent)
    (h : (e.action ≠ "opened" ∧ e.action ≠ "reopened" ∧
          e.action ≠ "ready_for_review" ∧ e.action ≠ "closed") ∨
         (e.action = "closed" ∧ e.pull_request.merged = false)) :
    handlePullRequestEvent cfg e = [] := by
  rcases h with ⟨h1, h2, h3, h4⟩ | ⟨h1, h2⟩
  · simp [handlePullRequestEvent, actionsToProcess, h1, h2, h3, h4]
  · simp [handlePullRequestEvent, actionsToProcess, h1, h2]

/-- C3 witness: action `edited` is dropped, and so is `closed` without merge. -/
theorem pullRequest_filtered_no_notification_witness :
    handlePullRequestEvent sampleConfig { sampleOpenedEvent with action := "edited" } = [] ∧
    handlePullRequestEvent sampleConfig { sampleOpenedEvent with action := "closed" } = [] :=
  ⟨pullRequest_filtered_no_notification sampleConfig
      { sampleOpenedEvent with action := "edited" }
      (Or.inl ⟨by decide, by decide, by decide, by decide⟩),
    pullRequest_filtered_no_notification sampleConfig
      { sampleOpenedEvent with action := "closed" }
      (Or.inr ⟨rfl, rfl⟩)⟩

/-- C4: every workflow-run event with action `completed` yields exactly one
notification, to the testing destination, whose embed color is a function of
the conclusion alone: success 0x2ECC71, failure 0xE74C3C, cancelled 0xF39C12,
skipped 0x95A5A6, anything else (including the empty string) 0xE6E6E6. -/
theorem workflowRun_completed_notifies (cfg : Config) (e : GitHubEvent)
    (h : e.action = "completed") :
    handleWorkflowRunEvent cfg e = [(cfg.testingChannelWebhook, wfMessage e)] ∧
    (wfMessage e).embeds.map DiscordEmbed.color =
      [if e.workflow_run.conclusion = "success" then 0x2ECC71
       else if e.workflow_run.conclusion = "failure" then 0xE74C3C
       else if e.workflow_run.conclusion = "cancelled" then 0xF39C12
       else if e.workflow_run.conclusion = "skipped" then 0x95A5A6
       else 0xE6E6E6] := by
  refine ⟨by simp [handleWorkflowRunEvent, h], ?_⟩
  by_cases h1 : e.workflow_run.conclusion = "success"
  · simp [wfMessage, h1]
  by_cases h2 : e.workflow_run.conclusion = "failure"
  · simp [wfMessage, h1, h2]
  by_cases h3 : e.workflow_run.conclusion = "cancelled"
  · simp [wfMessage, h1, h2, h3]
  by_cases h4 : e.workflow_run.conclusion = "skipped"
  · simp [wfMessage, h1, h2, h3, h4]
  · simp [wfMessage, h1, h2, h3, h4]

/-- C4 witness: the failed-CI scenario instantiated concretely. -/
theorem workflowRun_completed_notifies_witness :
    handleWorkflowRunEvent sampleConfig sampleCompletedEvent =
      [(sampleConfig.testingChannelWebhook, wfMessage sampleCompletedEvent)] ∧
    (wfMessage sampleCompletedEvent).embeds.map DiscordEmbed.color =
      [if sampleCompletedEvent.workflow_run.conclusion = "success" then 0x2ECC71
       else if sampleCompletedEvent.workflow_run.conclusion = "failure" then 0xE74C3C
       else if sampleCompletedEvent.workflow_run.conclusion = "cancelled" then 0xF39C12
       else if sampleCompletedEvent.workflow_run.conclusion = "skipped" then 0x95A5A6
       else 0xE6E6E6] :=
  workflowRun_completed_notifies sampleConfig sampleCompletedEvent rfl

/-- C5: a workflow-run event whose action is not `completed` (for example
`queued` or `in_progress`) produces no notification. -/
theorem workflowRun_not_completed_no_notification (cfg : Config) (e : GitHubEvent)
    (h : e.action ≠ "completed") :
    handleWorkflowRunEvent cfg e = [] := by
  simp [handleWorkflowRunEvent, h]

/-- C5 witness: action `queued` is dropped. -/
theorem workflowRun_not_completed_no_notification_witness :
    handleWorkflowRunEvent sampleConfig { sampleOpenedEvent with action := "queued" } = [] :=
  workflowRun_not_completed_no_notification sampleConfig
    { sampleOpenedEvent with action := "queued" } (by decide)

/-- C6: when the request body is not valid JSON, the dispatcher responds 400
with a JSON error body, invokes no handler, and performs no outbound send. -/
theorem webhook_invalid_json_rejected (cfg : Config) (eventType : String) :
    handleGitHubWebhook cfg eventType none =
      ({ status := 400, body := [("error", "Invalid JSON payload")] }, []) := rfl

/-- C7 counterexample: the body `{"action": 5}` is valid JSON, yet the
response is 400 (with no sends), because `json.Unmarshal` fails on the
number where the `action` field expects a string; the claim requires 200
for every valid-JSON body. -/
theorem webhook_valid_json_rejected_counterexample :
    handleGitHubWebhook
      { developmentChannelWebhook := "dev", testingChannelWebhook := "test" }
      "pull_request" (some (Json.obj [("action", Json.num 5)])) =
      ({ status := 400, body := [("error", "Invalid JSON payload")] }, []) := by
  decide

/-- C7 amended: the response is 200 (with the acknowledgment body,
regardless of the `X-GitHub-Event` header and of any downstream sends)
exactly when the body is valid JSON that also unmarshals into the event
structure; otherwise the response is 400 with the JSON error body and no
send occurs. -/
theorem webhook_response_amended (cfg : Config) (eventType : String) (body : Option Json) :
    ((handleGitHubWebhook cfg eventType body).fst.status = 200 ↔
      ∃ j, body = some j ∧ (decodeGitHubEvent j).isSome = true) ∧
    ((handleGitHubWebhook cfg eventType body).fst.status ≠ 200 →
      handleGitHubWebhook cfg eventType body =
        ({ status := 400, body := [("error", "Invalid JSON payload")] }, [])) ∧
    ((handleGitHubWebhook cfg eventType body).fst.status = 200 →
      (handleGitHubWebhook cfg eventType body).fst.body =
        [("message", "Webhook received successfully")]) := by
  match body with
  | none => simp [handleGitHubWebhook]
  | some j =>
    cases hd : decodeGitHubEvent j <;>
      simp [handleGitHubWebhook, hd]

/-- C7 amended witness: a decodable body is acknowledged with 200 even under
an unrecognized event-type header. -/
theorem webhook_response_amended_witness :
    (handleGitHubWebhook sampleConfig "unknown_event" (some Json.null)).fst.status = 200 :=
  (webhook_response_amended sampleConfig "unknown_event" (some Json.null)).1.mpr
    ⟨Json.null, rfl, rfl⟩

/-- C8: every pull-request notification has empty content and a single embed
whose title is "Pull Request <label>", whose description names the sender,
the label and the markdown link built from the PR number, title and URL,
whose link URL is the PR URL, and whose two inline fields are "Repository"
(full name linked to the repo URL) and "PR Status" (the raw PR state). -/
theorem pullRequest_notification_content (cfg : Config) (e : GitHubEvent)
    (d : String) (m : DiscordMessage)
    (h : handlePullRequestEvent cfg e = [(d, m)]) :
    m.content = "" ∧
    ∃ emb, m.embeds = [emb] ∧
      emb.title = "Pull Request " ++
        (if e.action == "closed" && e.pull_request.merged then "merged" else e.action) ∧
      emb.description = "**" ++ e.sender.login ++ "** " ++
        (if e.action == "closed" && e.pull_request.merged then "merged" else e.action) ++
        " [#" ++ toString e.pull_request.number ++ ": " ++
        e.pull_request.title ++ "](" ++ e.pull_request.html_url ++ ")" ∧
      emb.url = e.pull_request.html_url ∧
      emb.fields = [
        { name := "Repository"
          value := "[" ++ e.repository.full_name ++ "](" ++ e.repository.html_url ++ ")"
          inline := true },
        { name := "PR Status", value := e.pull_request.state, inline := true } ] := by
  have hmem : (d, m) ∈ handlePullRequestEvent cfg e := by
    rw [h]
    exact List.mem_singleton.mpr rfl
  have heq := handlePullRequestEvent_sends hmem
  simp only [Prod.mk.injEq] at heq
  obtain ⟨-, rfl⟩ := heq
  exact ⟨rfl, _, rfl, rfl, rfl, rfl, rfl⟩

/-- C8 witness: the spec's `opened` scenario yields exactly the described
embed. -/
theorem pullRequest_notification_content_witness :
    (prMessage sampleOpenedEvent).content = "" ∧
    ∃ emb, (prMessage sampleOpenedEvent).embeds = [emb] ∧
      emb.title = "Pull Request " ++
        (if sampleOpenedEvent.action == "closed" && sampleOpenedEvent.pull_request.merged
         then "merged" else sampleOpenedEvent.action) ∧
      emb.description = "**" ++ sampleOpenedEvent.sender.login ++ "** " ++
        (if sampleOpenedEvent.action == "closed" && sampleOpenedEvent.pull_request.merged
         then "merged" else sampleOpenedEvent.action) ++
        " [#" ++ toString sampleOpenedEvent.pull_request.number ++ ": " ++
        sampleOpenedEvent.pull_request.title ++ "](" ++
        sampleOpenedEvent.pull_request.html_url ++ ")" ∧
      emb.url = sampleOpenedEvent.pull_request.html_url ∧
      emb.fields = [
        { name := "Repository"
          value := "[" ++ sampleOpenedEvent.repository.full_name ++ "](" ++
            sampleOpenedEvent.repository.html_url ++ ")"
          inline := true },
        { name := "PR Status", value := sampleOpenedEvent.pull_request.state
          inline := true } ] :=
  pullRequest_notification_content sampleConfig sampleOpenedEvent
    sampleConfig.developmentChannelWebhook (prMessage sampleOpenedEvent) (by decide)

/-- C9: every notification built by either handler has empty top-level
content, exactly one embed, and that embed has exactly two fields, both
inline. -/
theorem notification_shape_invariant (cfg : Config) (e : GitHubEvent)
    (d : String) (m : DiscordMessage)
    (h : (d, m) ∈ handlePullRequestEvent cfg e ∨ (d, m) ∈ handleWorkflowRunEvent cfg e) :
    m.content = "" ∧ m.embeds.length = 1 ∧
    ∀ emb ∈ m.embeds, emb.fields.length = 2 ∧ ∀ f ∈ emb.fields, f.inline = true := by
  rcases h with h | h
  · have heq := handlePullRequestEvent_sends h
    simp only [Prod.mk.injEq] at heq
    obtain ⟨-, rfl⟩ := heq
    simp [prMessage]
  · have heq := handleWorkflowRunEvent_sends h
    simp only [Prod.mk.injEq] at heq
    obtain ⟨-, rfl⟩ := heq
    simp [wfMessage]

/-- C9 witness: the shape invariant checked on the concrete `opened`
notification. -/
theorem notification_shape_invariant_witness :
    (prMessage sampleOpenedEvent).content = "" ∧
    (prMessage sampleOpenedEvent).embeds.length = 1 ∧
    ∀ emb ∈ (prMessage sampleOpenedEvent).embeds, emb.fields.length = 2 ∧
      ∀ f ∈ emb.fields, f.inline = true :=
  notification_shape_invariant sampleConfig sampleOpenedEvent
    sampleConfig.developmentChannelWebhook (prMessage sampleOpenedEvent)
    (Or.inl (by decide))

/-- C10: both handlers are deterministic functions of the event and the
configuration: equal events produce identical results, and every send goes
to the fixed destination of its handler (development for pull requests,
testing for workflow runs). -/
theorem handlers_deterministic (cfg : Config) (e1 e2 : GitHubEvent) (h : e1 = e2) :
    handlePullRequestEvent cfg e1 = handlePullRequestEvent cfg e2 ∧
    handleWorkflowRunEvent cfg e1 = handleWorkflowRunEvent cfg e2 ∧
    (∀ x ∈ handlePullRequestEvent cfg e1, x.fst = cfg.developmentChannelWebhook) ∧
    (∀ x ∈ handleWorkflowRunEvent cfg e1, x.fst = cfg.testingChannelWebhook) := by
  subst h
  refine ⟨rfl, rfl, ?_, ?_⟩
  · intro x hx
    rw [handlePullRequestEvent_sends hx]
  · intro x hx
    rw [handleWorkflowRunEvent_sends hx]

/-- C10 witness: determinism and fixed destinations at the concrete `opened`
event. -/
theorem handlers_deterministic_witness :
    handlePullRequestEvent sampleConfig sampleOpenedEvent =
      handlePullRequestEvent sampleConfig sampleOpenedEvent ∧
    handleWorkflowRunEvent sampleConfig sampleOpenedEvent =
      handleWorkflowRunEvent sampleConfig sampleOpenedEvent ∧
    (∀ x ∈ handlePullRequestEvent sampleConfig sampleOpenedEvent,
      x.fst = sampleConfig.developmentChannelWebhook) ∧
    (∀ x ∈ handleWorkflowRunEvent sampleConfig sampleOpenedEvent,
      x.fst = sampleConfig.testingChannelWebhook) :=
  handlers_deterministic sampleConfig sampleOpenedEvent sampleOpenedEvent rfl
